import Mathlib

/-!
Verification development for the influx-ingester script
(`src/influx-ingester.py`).

The script subscribes to an MQTT topic carrying JSON sensor readings,
converts each reading to InfluxDB line-protocol text
(`convert_json_to_linedata`), POSTs it to an InfluxDB write endpoint
(`send_data_to_influx`, `is_successful_ingest`), and keeps per-session
counters (`on_message`).

Embedding conventions:
* A decoded JSON reading is an association list of key/value pairs in the
  original key order (Python `dict`s preserve insertion order; keys of a
  decoded JSON object are unique).
* Numeric JSON scalars carry their Python `str()` rendering as a string:
  the script only ever uses field values through `str()` / `%s`
  interpolation, so the rendering is the only observable part.
* Python `datetime` values are modelled exactly: a naive datetime is its
  wall-clock field tuple, an aware datetime is a wall-clock instant in
  microseconds paired with a `tzinfo`.  A `tzinfo` (as produced by
  `dateutil.tz.gettz`) is modelled by its two observable maps: the
  UTC offset it reports for a local wall-clock time (`utcoffset`) and the
  offset it applies when `astimezone` lands in it (`fromutc`), both in
  whole seconds as in the tz database.
* `datetime.timestamp()` returns real-number seconds; the model keeps the
  exact value (timezone offsets are whole seconds, so ten-power scaling is
  exact).  `'{0:.0f}'.format(x)` on an exactly-integral value prints that
  integer, which is how line 172 of the source is rendered.
* Exceptions are modelled with `Except`: `KeyError` on a missing dict key
  and `ValueError` from `strptime` become `ConvError`; the
  `raise SystemExit` on a `requests` transport error becomes `SendError`.
-/

/-- A scalar JSON value as used by the script.  `jstr` is a JSON string;
`jnum` is a numeric scalar carrying its Python `str()` rendering (the
script only observes values through `str()`). -/
inductive JValue where
  | jstr (s : String)
  | jnum (rendered : String)
deriving DecidableEq

/-- Python `str()` of a scalar JSON value (for a `str` this is the string
itself, as used by `%s` interpolation on line 176 of the source). -/
def JValue.pystr : JValue → String
  | .jstr s => s
  | .jnum r => r

/-- A decoded JSON reading: key/value pairs in original key order. -/
abbrev Reading := List (String × JValue)

/-- Python dict lookup `json_data[k]` returning `none` where Python raises
`KeyError` (keys of a decoded JSON object are unique, so first match is
the match). -/
def lookupField : Reading → String → Option JValue
  | [], _ => none
  | (k, v) :: rest, key => if k = key then some v else lookupField rest key

/-- The keys of a reading, in original order. -/
def readingKeys (json_data : Reading) : List String :=
  json_data.map Prod.fst

/-! ## Naive datetimes and `datetime.strptime` -/

/-- A naive `datetime`: the wall-clock fields produced by
`datetime.strptime` (validated: year 1-9999, month 1-12, day within the
month, hour 0-23, minute/second 0-59, microsecond 0-999999). -/
structure Datetime where
  year : Nat
  month : Nat
  day : Nat
  hour : Nat
  minute : Nat
  second : Nat
  microsecond : Nat
deriving DecidableEq

/-- Gregorian leap-year rule. -/
def isLeapYear (y : Nat) : Bool :=
  y % 4 == 0 && (y % 100 != 0 || y % 400 == 0)

/-- Number of days in a month of the proleptic Gregorian calendar. -/
def daysInMonth (y m : Nat) : Nat :=
  if m = 2 then (if isLeapYear y then 29 else 28)
  else if m = 4 ∨ m = 6 ∨ m = 9 ∨ m = 11 then 30
  else 31

/-- Days from the Unix epoch (1970-01-01) to the given civil date
(standard days-from-civil computation, as used by Python's
`datetime.timestamp` through the proleptic Gregorian calendar). -/
def daysFromCivil (y m d : Nat) : Int :=
  let yAdj : Int := if m ≤ 2 then (y : Int) - 1 else (y : Int)
  let era : Int := yAdj / 400
  let yoe : Int := yAdj - era * 400
  let mp : Int := if 2 < m then (m : Int) - 3 else (m : Int) + 9
  let doy : Int := (153 * mp + 2) / 5 + (d : Int) - 1
  let doe : Int := yoe * 365 + yoe / 4 - yoe / 100 + doy
  era * 146097 + doe - 719468

/-- The wall-clock value of a naive datetime expressed in microseconds
since the epoch of its own clock (i.e. its POSIX timestamp if the wall
clock were UTC). -/
def Datetime.naiveEpochMicros (dt : Datetime) : Int :=
  (daysFromCivil dt.year dt.month dt.day * 86400
      + (dt.hour : Int) * 3600 + (dt.minute : Int) * 60 + (dt.second : Int)) * 1000000
    + (dt.microsecond : Int)

/-- Numeric value of a decimal digit character. -/
def digitVal (c : Char) : Nat := c.toNat - 48

/-- Fold a digit list into a number (most significant first). -/
def digitsToNat (ds : List Nat) : Nat := ds.foldl (fun a d => 10 * a + d) 0

/-- Take up to `n` leading decimal digits from the input. -/
def takeDigits : Nat → List Char → (List Nat × List Char)
  | 0, s => ([], s)
  | _ + 1, [] => ([], [])
  | n + 1, c :: s =>
    if c.isDigit then
      let r := takeDigits n s
      (digitVal c :: r.1, r.2)
    else ([], c :: s)

/-- Match a one- or two-digit number in the range `lo..hi`, preferring two
digits, as the `_strptime` regular expressions for `%m` `%d` `%H` `%M`
`%S` do (for example `%m` is `1[0-2]|0[1-9]|[1-9]`). -/
def matchNum (lo hi : Nat) : List Char → Option (Nat × List Char)
  | [] => none
  | [c1] =>
    if c1.isDigit ∧ lo ≤ digitVal c1 ∧ digitVal c1 ≤ hi then
      some (digitVal c1, [])
    else none
  | c1 :: c2 :: rest =>
    if c1.isDigit then
      let two := 10 * digitVal c1 + digitVal c2
      if c2.isDigit ∧ lo ≤ two ∧ two ≤ hi then some (two, rest)
      else if lo ≤ digitVal c1 ∧ digitVal c1 ≤ hi then some (digitVal c1, c2 :: rest)
      else none
    else none

/-- Partial result of `strptime` directive matching: each field may be set
at most once (Python rejects a format with a repeated directive). -/
structure ParsedFields where
  y : Option Nat
  mo : Option Nat
  dy : Option Nat
  hh : Option Nat
  mi : Option Nat
  ss : Option Nat
  us : Option Nat

/-- The empty set of parsed fields. -/
def ParsedFields.init : ParsedFields := ⟨none, none, none, none, none, none, none⟩

/-- Run a `strptime` format over the input.  Supported directives are the
numeric ones the script's configuration uses: `%Y` (exactly four digits),
`%m` `%d` `%H` `%M` `%S` (one or two digits as in the `_strptime`
regular expressions), `%f` (one to six digits, right-padded to
microseconds) and `%%`; any other directive fails, a space in the format
matches one or more whitespace characters (Python compiles runs of format
whitespace to a greedy `\s+`), any other literal matches itself, and the
whole input must be consumed (Python raises on unconverted trailing
data). -/
def runFormat : List Char → List Char → ParsedFields → Option ParsedFields
  | [], s, acc => if s.isEmpty then some acc else none
  | ['%'], _, _ => none
  | '%' :: d :: fmtRest, s, acc =>
    if d = '%' then
      match s with
      | c :: sRest => if c = '%' then runFormat fmtRest sRest acc else none
      | [] => none
    else if d = 'Y' then
      let r := takeDigits 4 s
      if r.1.length = 4 ∧ acc.y = none then
        runFormat fmtRest r.2 { acc with y := some (digitsToNat r.1) }
      else none
    else if d = 'm' then
      match matchNum 1 12 s with
      | some (v, sRest) =>
        if acc.mo = none then runFormat fmtRest sRest { acc with mo := some v } else none
      | none => none
    else if d = 'd' then
      match matchNum 1 31 s with
      | some (v, sRest) =>
        if acc.dy = none then runFormat fmtRest sRest { acc with dy := some v } else none
      | none => none
    else if d = 'H' then
      match matchNum 0 23 s with
      | some (v, sRest) =>
        if acc.hh = none then runFormat fmtRest sRest { acc with hh := some v } else none
      | none => none
    else if d = 'M' then
      match matchNum 0 59 s with
      | some (v, sRest) =>
        if acc.mi = none then runFormat fmtRest sRest { acc with mi := some v } else none
      | none => none
    else if d = 'S' then
      match matchNum 0 59 s with
      | some (v, sRest) =>
        if acc.ss = none then runFormat fmtRest sRest { acc with ss := some v } else none
      | none => none
    else if d = 'f' then
      let r := takeDigits 6 s
      if 1 ≤ r.1.length ∧ acc.us = none then
        runFormat fmtRest r.2
          { acc with us := some (digitsToNat r.1 * 10 ^ (6 - r.1.length)) }
      else none
    else none
  | c :: fmtRest, s, acc =>
    if c = ' ' then
      match s with
      | c0 :: sRest =>
        if c0.isWhitespace then
          runFormat fmtRest (sRest.dropWhile Char.isWhitespace) acc
        else none
      | [] => none
    else
      match s with
      | c0 :: sRest => if c0 = c then runFormat fmtRest sRest acc else none
      | [] => none

/-- Assemble and validate the parsed fields, applying Python's `strptime`
defaults (year 1900, month 1, day 1, midnight). -/
def buildDatetime (f : ParsedFields) : Option Datetime :=
  let y := f.y.getD 1900
  let mo := f.mo.getD 1
  let dy := f.dy.getD 1
  let hh := f.hh.getD 0
  let mi := f.mi.getD 0
  let ss := f.ss.getD 0
  let us := f.us.getD 0
  if 1 ≤ y ∧ y ≤ 9999 ∧ 1 ≤ mo ∧ mo ≤ 12 ∧ 1 ≤ dy ∧ dy ≤ daysInMonth y mo
      ∧ hh ≤ 23 ∧ mi ≤ 59 ∧ ss ≤ 59 ∧ us ≤ 999999 then
    some ⟨y, mo, dy, hh, mi, ss, us⟩
  else none

/-- `datetime.strptime(dateString, fmt)`, returning `none` where Python
raises `ValueError`. -/
def strptime (dateString fmt : String) : Option Datetime :=
  match runFormat fmt.toList dateString.toList ParsedFields.init with
  | some f => buildDatetime f
  | none => none

/-! ## Timezones and aware datetimes -/

/-- A `tzinfo` as produced by `dateutil.tz.gettz`, modelled by its two
observable maps, both returning whole seconds: `utcoffset w` is the UTC
offset the zone reports for local wall-clock time `w` (microseconds since
the epoch of the local clock), used by `datetime.timestamp()`;
`fromutc e` is the offset `astimezone` applies when converting the UTC
instant `e` (microseconds since the Unix epoch) into this zone. -/
structure TZ where
  utcoffset : Int → Int
  fromutc : Int → Int

/-- A real timezone is coherent: the wall clock obtained by converting a
UTC instant into the zone reports exactly the offset that was applied (the
defining property of `tzinfo.fromutc`, satisfied by the tz database
zones `dateutil` exposes). -/
def TZ.Coherent (z : TZ) : Prop :=
  ∀ e : Int, z.utcoffset (e + 1000000 * z.fromutc e) = z.fromutc e

/-- `tz.gettz('UTC')`. -/
def tzUTC : TZ := ⟨fun _ => 0, fun _ => 0⟩

/-- A fixed-offset zone (offset in seconds), e.g. `tz.gettz('Etc/GMT-10')`. -/
def tzFixed (offsetSeconds : Int) : TZ :=
  ⟨fun _ => offsetSeconds, fun _ => offsetSeconds⟩

/-- An aware `datetime`: a wall-clock instant in microseconds together
with its `tzinfo`. -/
structure Aware where
  wallMicros : Int
  tzinfo : TZ

/-- `naive.replace(tzinfo=z)` (line 170 of the source): attach the zone to
the naive wall clock without converting. -/
def Datetime.replaceTzinfo (dt : Datetime) (z : TZ) : Aware :=
  ⟨dt.naiveEpochMicros, z⟩

/-- The value of `aware.timestamp()` in microseconds: the wall clock minus
the zone's reported UTC offset at that wall clock. -/
def Aware.timestampMicros (a : Aware) : Int :=
  a.wallMicros - 1000000 * a.tzinfo.utcoffset a.wallMicros

/-- `aware.timestamp()`: POSIX seconds as an exact real (the model of the
CPython float). -/
def Aware.timestamp (a : Aware) : ℚ :=
  (a.timestampMicros : ℚ) / 1000000

/-- `aware.astimezone(z2)` (line 171 of the source): the same instant
expressed on `z2`'s wall clock. -/
def Aware.astimezone (a : Aware) (z2 : TZ) : Aware :=
  let e := a.timestampMicros
  ⟨e + 1000000 * z2.fromutc e, z2⟩

/-! ## Configuration -/

/-- The `source` side of the configuration used by the conversion. -/
structure SourceConfig where
  timezone : TZ
  timestamp_format : String

/-- The `destination.influxdb` settings used to build the write request. -/
structure InfluxConfig where
  api_endpoint : String
  org : String
  bucket : String
  precision : String
  token : String

/-- The `destination` side of the configuration. -/
structure DestConfig where
  timezone : TZ
  influxdb : InfluxConfig

/-- The configuration object handed to the core (parsed from YAML by the
excluded loader). -/
structure Config where
  source : SourceConfig
  destination : DestConfig

/-! ## `convert_json_to_linedata` (source lines 144-177) -/

/-- Exceptions `convert_json_to_linedata` can raise: `missingField k` is
Python's `KeyError(k)` from `json_data[k]` (lines 163-164),
`timestampParse` is the `ValueError` from `strptime` (line 169), and
`typeError` is the `TypeError` from passing a non-string TIMESTAMP to
`strptime`. -/
inductive ConvError where
  | missingField (key : String)
  | timestampParse
  | typeError
deriving DecidableEq

/-- The field segment built on line 175 of the source: every key of the
reading except `TIMESTAMP` and `Station`, rendered `key=str(value)` and
joined with commas, in the reading's own key order (each entry's value is
its own `json_data[k]`, keys of a decoded JSON object being unique). -/
def lineFields (json_data : Reading) : String :=
  String.intercalate ","
    ((json_data.filter fun kv => !(kv.1 == "TIMESTAMP" || kv.1 == "Station")).map
      fun kv => kv.1 ++ "=" ++ kv.2.pystr)

/-- `convert_json_to_linedata(json_data, config)` (lines 144-177): extract
`Station` and `TIMESTAMP`, parse the timestamp with the configured format,
attach the source timezone, convert to the destination timezone, scale
`timestamp()` by 1000000 and print it with no decimals (the exact integer
`timestampMicros`), and assemble the line. -/
def convert_json_to_linedata (json_data : Reading) (config : Config) :
    Except ConvError String :=
  match lookupField json_data "Station" with
  | none => .error (.missingField "Station")
  | some station_name =>
    match lookupField json_data "TIMESTAMP" with
    | none => .error (.missingField "TIMESTAMP")
    | some (.jnum _) => .error .typeError
    | some (.jstr timestamp) =>
      let from_zone := config.source.timezone
      let to_zone := config.destination.timezone
      match strptime timestamp config.source.timestamp_format with
      | none => .error .timestampParse
      | some parsed =>
        let from_dt := parsed.replaceTzinfo from_zone
        let to_dt := from_dt.astimezone to_zone
        let timestamp_nano := toString to_dt.timestampMicros
        let fields := lineFields json_data
        .ok ("sensors,station=" ++ station_name.pystr ++ " " ++ fields ++ " " ++ timestamp_nano)

/-! ## Delivery (source lines 82-142) -/

/-- The part of a `requests` response object the script reads. -/
structure Response where
  status_code : Nat
  reason : String
deriving DecidableEq

/-- `is_successful_ingest(response)` (lines 82-96). -/
def is_successful_ingest (response : Response) : Bool :=
  response.status_code == 204

/-- Outcome of the `requests.post` call on line 135: either a response or
a raised `requests.exceptions.RequestException`. -/
inductive PostOutcome where
  | response (r : Response)
  | requestException (msg : String)

/-- Exceptions `send_data_to_influx` can propagate: a conversion error
from `convert_json_to_linedata`, or the `SystemExit` raised on line 138
for a transport error. -/
inductive SendError where
  | convError (e : ConvError)
  | systemExit (msg : String)
deriving DecidableEq

/-- The write URL built on line 127. -/
def influxWriteUrl (config : Config) : String :=
  config.destination.influxdb.api_endpoint
    ++ "?org=" ++ config.destination.influxdb.org
    ++ "&bucket=" ++ config.destination.influxdb.bucket
    ++ "&precision=" ++ config.destination.influxdb.precision

/-- `send_data_to_influx(json_data, silent_mode, config)` (lines 98-142),
with the network's behaviour (`requests.post`) supplied as `post`: convert
the reading, POST it, re-raise a transport error as `SystemExit`, and
otherwise report `is_successful_ingest` of the response.  `silent_mode`
only controls logging. -/
def send_data_to_influx (json_data : Reading) (silent_mode : Bool)
    (config : Config) (post : PostOutcome) : Except SendError Bool :=
  match convert_json_to_linedata json_data config with
  | .error e => .error (.convError e)
  | .ok line_data =>
    let url := influxWriteUrl config
    let _ := silent_mode
    let _ := (url, line_data)
    match post with
    | .requestException e => .error (.systemExit e)
    | .response response => .ok (is_successful_ingest response)

/-! ## Session counters (`on_message`, source lines 52-80) -/

/-- The counter part of the `userdata` dict (line 212 of the source also
carries `config`, `silent` and `last_datetime`, which only affect
logging). -/
structure Userdata where
  received : Nat
  ingested : Nat
deriving DecidableEq

/-- The initial userdata built on line 212: both counters zero. -/
def initial_userdata : Userdata := ⟨0, 0⟩

/-- What happened to one inbound message after the `received` increment:
`decoded delivered` means `json.loads` and `send_data_to_influx` returned
(with `delivered` the boolean result), `handlerException` means the
decode, the conversion or the POST raised. -/
inductive MessageOutcome where
  | decoded (delivered : Bool)
  | handlerException
deriving DecidableEq

/-- `on_message` (lines 52-80) restricted to its counter effect:
`received` is incremented first, unconditionally (line 66); `ingested` is
incremented exactly when `send_data_to_influx` returned true (lines
68-74).  The timing report on lines 75-80 only logs. -/
def on_message (userdata : Userdata) (outcome : MessageOutcome) : Userdata :=
  let userdata := { userdata with received := userdata.received + 1 }
  match outcome with
  | .decoded true => { userdata with ingested := userdata.ingested + 1 }
  | .decoded false => userdata
  | .handlerException => userdata

/-- Counter state after a whole session of message outcomes. -/
def runSession (outcomes : List MessageOutcome) : Userdata :=
  outcomes.foldl on_message initial_userdata

/-! ## Concrete instances used by examples and witnesses -/

/-- The timestamp format from the example configuration. -/
def fmtExample : String := "%Y-%m-%d %H:%M:%S.%f"

/-- A destination InfluxDB configuration (values irrelevant to the claims). -/
def influxExample : InfluxConfig :=
  ⟨"http://localhost:9999/api/v2/write", "myorg", "mybucket", "us", "mytoken"⟩

/-- Configuration with source timezone UTC, destination timezone UTC and
the example timestamp format. -/
def cfgUTC : Config := ⟨⟨tzUTC, fmtExample⟩, ⟨tzUTC, influxExample⟩⟩

/-- The reading from the spec's end-to-end example, in its JSON key
order. -/
def readingExample : Reading :=
  [("TIMESTAMP", .jstr "2020-04-27 11:46:24.922982"), ("RECORD", .jnum "44"),
   ("Station", .jstr "DummyRiverWQ"), ("LoggerBattV", .jnum "12.7")]

/-- A reading with only `Station` and `TIMESTAMP` and one field, whose
timestamp is one second before the Unix epoch. -/
def readingPre1970 : Reading :=
  [("Station", .jstr "S"), ("TIMESTAMP", .jstr "1969-12-31 23:59:59.000000"),
   ("X", .jnum "1")]

/-! ## Helper lemmas -/

/-- Scaling exact seconds by one million and rounding recovers the exact
microsecond count. -/
theorem round_micros (e : Int) : round ((e : ℚ) / 1000000 * 1000000) = e := by
  rw [div_mul_cancel₀ _ (by norm_num : (1000000 : ℚ) ≠ 0)]
  exact round_intCast e

/-- `astimezone` into a coherent zone does not change the instant. -/
theorem Aware.astimezone_timestampMicros (a : Aware) (z : TZ) (hz : z.Coherent) :
    (a.astimezone z).timestampMicros = a.timestampMicros := by
  unfold Aware.astimezone Aware.timestampMicros
  rw [hz]
  ring

/-- Unfolding of `convert_json_to_linedata` on a valid reading. -/
theorem convert_valid_eq (r : Reading) (cfg : Config) (st : JValue) (ts : String)
    (dt : Datetime) (hSt : lookupField r "Station" = some st)
    (hTs : lookupField r "TIMESTAMP" = some (.jstr ts))
    (hParse : strptime ts cfg.source.timestamp_format = some dt) :
    convert_json_to_linedata r cfg =
      .ok ("sensors,station=" ++ st.pystr ++ " " ++ lineFields r ++ " "
        ++ toString ((dt.replaceTzinfo cfg.source.timezone).astimezone
            cfg.destination.timezone).timestampMicros) := by
  simp only [convert_json_to_linedata, hSt, hTs, hParse]

/-- The spec's description of the field segment: every key of the reading
except `Station` and `TIMESTAMP`, in the reading's original key order,
each serialized as `key=value` (value looked up by key and rendered with
`str()`), joined by commas. -/
def specFieldSegment (r : Reading) : String :=
  String.intercalate ","
    (((readingKeys r).filter fun k => decide (k ≠ "Station" ∧ k ≠ "TIMESTAMP")).map
      fun k => k ++ "=" ++ ((lookupField r k).map JValue.pystr).getD "")

/-- The key-level and entry-level exclusion tests agree. -/
theorem filterCond_eq (k : String) :
    decide (k ≠ "Station" ∧ k ≠ "TIMESTAMP") = !(k == "TIMESTAMP" || k == "Station") := by
  by_cases h1 : k = "Station" <;> by_cases h2 : k = "TIMESTAMP" <;> simp [h1, h2]

/-- On a reading with unique keys (as every decoded JSON object has), the
spec's key-order field segment equals the one the source builds. -/
theorem specFieldSegment_eq (r : Reading) (hnd : (readingKeys r).Nodup) :
    specFieldSegment r = lineFields r := by
  unfold specFieldSegment lineFields
  congr 1
  induction r with
  | nil => rfl
  | cons hd t ih =>
    obtain ⟨k0, v0⟩ := hd
    have hnd' := hnd
    rw [readingKeys, List.map_cons, List.nodup_cons] at hnd'
    obtain ⟨hk0, hndt⟩ := hnd'
    have htail : ∀ k ∈ (readingKeys t).filter
        (fun k => decide (k ≠ "Station" ∧ k ≠ "TIMESTAMP")),
        (k ++ "=" ++ ((lookupField ((k0, v0) :: t) k).map JValue.pystr).getD "")
          = (k ++ "=" ++ ((lookupField t k).map JValue.pystr).getD "") := by
      intro k hk
      have hkt : k ∈ readingKeys t := (List.mem_filter.mp hk).1
      have hne : k0 ≠ k := fun h => hk0 (h ▸ hkt)
      simp [lookupField, hne]
    by_cases hcond : k0 == "TIMESTAMP" || k0 == "Station"
    · have hdrop : decide (k0 ≠ "Station" ∧ k0 ≠ "TIMESTAMP") = false := by
        rw [filterCond_eq, hcond]
        rfl
      rw [readingKeys, List.map_cons, List.filter_cons_of_neg (by simp [hdrop]),
        List.filter_cons_of_neg (by simp [hcond])]
      rw [← readingKeys, List.map_congr_left htail]
      exact ih hndt
    · have hkeep : decide (k0 ≠ "Station" ∧ k0 ≠ "TIMESTAMP") = true := by
        rw [filterCond_eq]
        simp only [hcond]
        rfl
      rw [readingKeys, List.map_cons, List.filter_cons_of_pos (by simp [hkeep]),
        List.filter_cons_of_pos (by simp [hcond]), List.map_cons]
      rw [← readingKeys, List.map_congr_left htail]
      have hhd : ((lookupField ((k0, v0) :: t) k0).map JValue.pystr).getD "" = v0.pystr := by
        simp [lookupField]
      rw [hhd, ih hndt, List.map_cons]

/-- Counter evolution over any tail of the session, from any state. -/
theorem foldl_on_message (outcomes : List MessageOutcome) (u : Userdata) :
    (outcomes.foldl on_message u).received = u.received + outcomes.length ∧
    (outcomes.foldl on_message u).ingested =
      u.ingested + outcomes.countP (fun o => decide (o = .decoded true)) := by
  induction outcomes generalizing u with
  | nil => simp
  | cons a t ih =>
    have h := ih (on_message u a)
    rw [List.foldl_cons, List.length_cons, List.countP_cons]
    refine ⟨?_, ?_⟩
    · rw [h.1]
      cases a with
      | decoded b =>
        cases b
        all_goals simp [on_message]
        all_goals omega
      | handlerException => simp only [on_message]; omega
    · rw [h.2]
      cases a with
      | decoded b =>
        cases b
        all_goals simp [on_message]
        all_goals omega
      | handlerException => simp [on_message]

/-! ## Claims -/

/-- C1 (counterexample): on the spec's example reading with source and
destination timezone UTC and format `%Y-%m-%d %H:%M:%S.%f`, the converter
does not return the string the claim names: the claimed numeral
1588001184922982 is the microsecond count of 2020-04-27T15:26:24.922982Z,
13200 seconds after the reading's instant. -/
theorem c1_counterexample :
    convert_json_to_linedata readingExample cfgUTC ≠
      .ok "sensors,station=DummyRiverWQ RECORD=44,LoggerBattV=12.7 1588001184922982" := by
  intro h
  have h0 : convert_json_to_linedata readingExample cfgUTC =
      .ok "sensors,station=DummyRiverWQ RECORD=44,LoggerBattV=12.7 1587987984922982" := rfl
  rw [h0] at h
  have h2 := Except.ok.inj h
  exact absurd h2 (by decide)

/-- C1 (amended): the conversion of the example reading with identical
source/destination timezone UTC returns exactly
`sensors,station=DummyRiverWQ RECORD=44,LoggerBattV=12.7 1587987984922982`,
whose trailing numeral is the microsecond count of
2020-04-27T11:46:24.922982Z. -/
theorem c1_example_output :
    convert_json_to_linedata readingExample cfgUTC =
      .ok "sensors,station=DummyRiverWQ RECORD=44,LoggerBattV=12.7 1587987984922982" := rfl

/-- C2: for every reading whose TIMESTAMP parses under the configured
format, the numeric timestamp the converter emits is exactly
`round(unix_seconds_of_destination_instant * 1000000)` — microsecond
scale, scale factor one million. -/
theorem c2_timestamp_scale (r : Reading) (cfg : Config) (st : JValue) (ts : String)
    (dt : Datetime) (hSt : lookupField r "Station" = some st)
    (hTs : lookupField r "TIMESTAMP" = some (.jstr ts))
    (hParse : strptime ts cfg.source.timestamp_format = some dt) :
    convert_json_to_linedata r cfg =
      .ok ("sensors,station=" ++ st.pystr ++ " " ++ lineFields r ++ " "
        ++ toString ((dt.replaceTzinfo cfg.source.timezone).astimezone
            cfg.destination.timezone).timestampMicros) ∧
    ((dt.replaceTzinfo cfg.source.timezone).astimezone
        cfg.destination.timezone).timestampMicros =
      round (((dt.replaceTzinfo cfg.source.timezone).astimezone
        cfg.destination.timezone).timestamp * 1000000) := by
  refine ⟨convert_valid_eq r cfg st ts dt hSt hTs hParse, ?_⟩
  unfold Aware.timestamp
  exact (round_micros _).symm

/-- C2 witness: the scale property instantiated on the example reading
with the UTC/UTC configuration. -/
theorem c2_timestamp_scale_witness :
    convert_json_to_linedata readingExample cfgUTC =
      .ok ("sensors,station=" ++ (JValue.jstr "DummyRiverWQ").pystr ++ " "
        ++ lineFields readingExample ++ " "
        ++ toString (((⟨2020, 4, 27, 11, 46, 24, 922982⟩ : Datetime).replaceTzinfo
            cfgUTC.source.timezone).astimezone
            cfgUTC.destination.timezone).timestampMicros) ∧
    (((⟨2020, 4, 27, 11, 46, 24, 922982⟩ : Datetime).replaceTzinfo
        cfgUTC.source.timezone).astimezone
        cfgUTC.destination.timezone).timestampMicros =
      round ((((⟨2020, 4, 27, 11, 46, 24, 922982⟩ : Datetime).replaceTzinfo
        cfgUTC.source.timezone).astimezone
        cfgUTC.destination.timezone).timestamp * 1000000) :=
  c2_timestamp_scale readingExample cfgUTC (.jstr "DummyRiverWQ")
    "2020-04-27 11:46:24.922982" ⟨2020, 4, 27, 11, 46, 24, 922982⟩ rfl rfl rfl

/-- C3: given a response, delivery returns true exactly for status 204;
any other status (e.g. 200 or 400) yields a normal false return, not an
exception. -/
theorem c3_delivery_status (r : Reading) (silent : Bool) (cfg : Config)
    (resp : Response) (ld : String)
    (hConv : convert_json_to_linedata r cfg = .ok ld) :
    send_data_to_influx r silent cfg (.response resp) =
      .ok (is_successful_ingest resp) ∧
    (is_successful_ingest resp = true ↔ resp.status_code = 204) := by
  constructor
  · simp only [send_data_to_influx, hConv]
  · simp [is_successful_ingest]

/-- C3 witness: statuses 200 and 204 on the example reading. -/
theorem c3_delivery_status_witness :
    (send_data_to_influx readingExample false cfgUTC (.response ⟨200, "OK"⟩) =
      .ok (is_successful_ingest ⟨200, "OK"⟩) ∧
    (is_successful_ingest (⟨200, "OK"⟩ : Response) = true ↔
      (⟨200, "OK"⟩ : Response).status_code = 204)) ∧
    send_data_to_influx readingExample false cfgUTC (.response ⟨204, "No Content"⟩) =
      .ok true :=
  ⟨c3_delivery_status readingExample false cfgUTC ⟨200, "OK"⟩
      "sensors,station=DummyRiverWQ RECORD=44,LoggerBattV=12.7 1587987984922982" rfl,
   (c3_delivery_status readingExample false cfgUTC ⟨204, "No Content"⟩
      "sensors,station=DummyRiverWQ RECORD=44,LoggerBattV=12.7 1587987984922982" rfl).1⟩

/-- C4: over any session, `received` counts every message and `ingested`
counts exactly the confirmed (status-204) deliveries, independent of
interleaving; and a single `on_message` call increments `received`
unconditionally. -/
theorem c4_counters (outcomes : List MessageOutcome) :
    (runSession outcomes).received = outcomes.length ∧
    (runSession outcomes).ingested =
      outcomes.countP (fun o => decide (o = .decoded true)) ∧
    ∀ (u : Userdata) (o : MessageOutcome), (on_message u o).received = u.received + 1 := by
  have h := foldl_on_message outcomes initial_userdata
  refine ⟨?_, ?_, ?_⟩
  · rw [runSession, h.1]
    simp [initial_userdata]
  · rw [runSession, h.2]
    simp [initial_userdata]
  · intro u o
    cases o with
    | decoded b => cases b <;> rfl
    | handlerException => rfl

/-- C5: a reading without `Station` fails with `KeyError("Station")` (the
spec's MissingFieldError), and one with `Station` but without `TIMESTAMP`
fails with `KeyError("TIMESTAMP")` — the error names the missing field
rather than being an unlabeled failure. -/
theorem c5_missing_field (r : Reading) (cfg : Config) :
    (lookupField r "Station" = none →
      convert_json_to_linedata r cfg = .error (.missingField "Station")) ∧
    (∀ st, lookupField r "Station" = some st → lookupField r "TIMESTAMP" = none →
      convert_json_to_linedata r cfg = .error (.missingField "TIMESTAMP")) := by
  constructor
  · intro h
    simp only [convert_json_to_linedata, h]
  · intro st h1 h2
    simp only [convert_json_to_linedata, h1, h2]

/-- C5 witness: a reading missing `Station`, and one missing only
`TIMESTAMP`. -/
theorem c5_missing_field_witness :
    convert_json_to_linedata [("RECORD", .jnum "44")] cfgUTC =
      .error (.missingField "Station") ∧
    convert_json_to_linedata [("Station", .jstr "S")] cfgUTC =
      .error (.missingField "TIMESTAMP") :=
  ⟨(c5_missing_field [("RECORD", .jnum "44")] cfgUTC).1 rfl,
   (c5_missing_field [("Station", .jstr "S")] cfgUTC).2 (.jstr "S") rfl rfl⟩

/-- C6: for a valid reading (unique keys, as every decoded JSON object
has), the field segment of the output is exactly the reading's keys minus
`Station` and `TIMESTAMP`, each rendered `key=value` and joined by commas,
in the reading's original key order (`specFieldSegment`, written from the
spec's description). -/
theorem c6_field_segment (r : Reading) (cfg : Config) (st : JValue) (ts : String)
    (dt : Datetime) (hnd : (readingKeys r).Nodup)
    (hSt : lookupField r "Station" = some st)
    (hTs : lookupField r "TIMESTAMP" = some (.jstr ts))
    (hParse : strptime ts cfg.source.timestamp_format = some dt) :
    convert_json_to_linedata r cfg =
      .ok ("sensors,station=" ++ st.pystr ++ " " ++ specFieldSegment r ++ " "
        ++ toString ((dt.replaceTzinfo cfg.source.timezone).astimezone
            cfg.destination.timezone).timestampMicros) := by
  rw [specFieldSegment_eq r hnd]
  exact convert_valid_eq r cfg st ts dt hSt hTs hParse

/-- C6 witness: the example reading has field segment
`RECORD=44,LoggerBattV=12.7`, in its own key order. -/
theorem c6_field_segment_witness :
    convert_json_to_linedata readingExample cfgUTC =
      .ok ("sensors,station=" ++ (JValue.jstr "DummyRiverWQ").pystr ++ " "
        ++ specFieldSegment readingExample ++ " "
        ++ toString (((⟨2020, 4, 27, 11, 46, 24, 922982⟩ : Datetime).replaceTzinfo
            cfgUTC.source.timezone).astimezone
            cfgUTC.destination.timezone).timestampMicros) ∧
    specFieldSegment readingExample = "RECORD=44,LoggerBattV=12.7" :=
  ⟨c6_field_segment readingExample cfgUTC (.jstr "DummyRiverWQ")
    "2020-04-27 11:46:24.922982" ⟨2020, 4, 27, 11, 46, 24, 922982⟩
    (by decide) rfl rfl rfl, rfl⟩

/-- C7: the converter treats the parsed wall clock as local to the source
timezone — the emitted instant is the wall clock minus the source zone's
offset at that wall clock, with no prior conversion — and converting the
zoned instant to a (coherent) destination timezone before the numeric
timestamp is computed does not change it. -/
theorem c7_timezone_semantics (r : Reading) (cfg : Config) (st : JValue) (ts : String)
    (dt : Datetime) (hSt : lookupField r "Station" = some st)
    (hTs : lookupField r "TIMESTAMP" = some (.jstr ts))
    (hParse : strptime ts cfg.source.timestamp_format = some dt)
    (hco : cfg.destination.timezone.Coherent) :
    ((dt.replaceTzinfo cfg.source.timezone).astimezone
        cfg.destination.timezone).timestampMicros =
      dt.naiveEpochMicros
        - 1000000 * cfg.source.timezone.utcoffset dt.naiveEpochMicros ∧
    convert_json_to_linedata r cfg =
      .ok ("sensors,station=" ++ st.pystr ++ " " ++ lineFields r ++ " "
        ++ toString (dt.naiveEpochMicros
            - 1000000 * cfg.source.timezone.utcoffset dt.naiveEpochMicros)) := by
  have hts : ((dt.replaceTzinfo cfg.source.timezone).astimezone
      cfg.destination.timezone).timestampMicros =
        dt.naiveEpochMicros
          - 1000000 * cfg.source.timezone.utcoffset dt.naiveEpochMicros := by
    rw [Aware.astimezone_timestampMicros _ _ hco]
    rfl
  refine ⟨hts, ?_⟩
  rw [← hts]
  exact convert_valid_eq r cfg st ts dt hSt hTs hParse

/-- C7 witness: the example reading under the UTC/UTC configuration
(UTC is coherent). -/
theorem c7_timezone_semantics_witness :
    (((⟨2020, 4, 27, 11, 46, 24, 922982⟩ : Datetime).replaceTzinfo
        cfgUTC.source.timezone).astimezone
        cfgUTC.destination.timezone).timestampMicros =
      (⟨2020, 4, 27, 11, 46, 24, 922982⟩ : Datetime).naiveEpochMicros
        - 1000000 * cfgUTC.source.timezone.utcoffset
            (⟨2020, 4, 27, 11, 46, 24, 922982⟩ : Datetime).naiveEpochMicros ∧
    convert_json_to_linedata readingExample cfgUTC =
      .ok ("sensors,station=" ++ (JValue.jstr "DummyRiverWQ").pystr ++ " "
        ++ lineFields readingExample ++ " "
        ++ toString ((⟨2020, 4, 27, 11, 46, 24, 922982⟩ : Datetime).naiveEpochMicros
            - 1000000 * cfgUTC.source.timezone.utcoffset
                (⟨2020, 4, 27, 11, 46, 24, 922982⟩ : Datetime).naiveEpochMicros)) :=
  c7_timezone_semantics readingExample cfgUTC (.jstr "DummyRiverWQ")
    "2020-04-27 11:46:24.922982" ⟨2020, 4, 27, 11, 46, 24, 922982⟩ rfl rfl rfl
    (fun _ => rfl)

/-- C8: a transport error from the POST makes the delivery function raise
`SystemExit` instead of returning a boolean, while any received response
makes it return normally. -/
theorem c8_transport_fatal (r : Reading) (silent : Bool) (cfg : Config)
    (msg ld : String) (hConv : convert_json_to_linedata r cfg = .ok ld) :
    send_data_to_influx r silent cfg (.requestException msg) =
      .error (.systemExit msg) ∧
    ∀ resp : Response, ∃ b : Bool,
      send_data_to_influx r silent cfg (.response resp) = .ok b := by
  constructor
  · simp only [send_data_to_influx, hConv]
  · intro resp
    refine ⟨is_successful_ingest resp, ?_⟩
    simp only [send_data_to_influx, hConv]

/-- C8 witness: a connection failure on the example reading exits; a 400
response returns false normally. -/
theorem c8_transport_fatal_witness :
    send_data_to_influx readingExample false cfgUTC
      (.requestException "connection refused") =
      .error (.systemExit "connection refused") ∧
    ∀ resp : Response, ∃ b : Bool,
      send_data_to_influx readingExample false cfgUTC (.response resp) = .ok b :=
  c8_transport_fatal readingExample false cfgUTC "connection refused"
    "sensors,station=DummyRiverWQ RECORD=44,LoggerBattV=12.7 1587987984922982" rfl

/-- C9 (counterexample): a valid reading one second before the Unix epoch
produces a line whose timestamp numeral is that of the negative integer
-1000000, so the output does not end in a positive integer timestamp. -/
theorem c9_counterexample :
    convert_json_to_linedata readingPre1970 cfgUTC =
      .ok ("sensors,station=S X=1 " ++ toString (-1000000 : Int)) ∧
    convert_json_to_linedata readingPre1970 cfgUTC =
      .ok "sensors,station=S X=1 -1000000" ∧
    ¬ (0 : Int) < -1000000 :=
  ⟨rfl, rfl, by decide⟩

/-- C9 (amended): for every valid reading the output is
`sensors,station=<Station> <fields> <timestamp numeral>`, and the numeral
is that of a positive integer whenever the computed destination-instant
timestamp is positive (readings before the Unix epoch yield a
non-positive numeral). -/
theorem c9_line_shape (r : Reading) (cfg : Config) (st : JValue) (ts : String)
    (dt : Datetime) (hSt : lookupField r "Station" = some st)
    (hTs : lookupField r "TIMESTAMP" = some (.jstr ts))
    (hParse : strptime ts cfg.source.timestamp_format = some dt)
    (hpos : 0 < ((dt.replaceTzinfo cfg.source.timezone).astimezone
        cfg.destination.timezone).timestampMicros) :
    convert_json_to_linedata r cfg =
      .ok ("sensors,station=" ++ st.pystr ++ " " ++ lineFields r ++ " "
        ++ toString ((dt.replaceTzinfo cfg.source.timezone).astimezone
            cfg.destination.timezone).timestampMicros) ∧
    0 < ((dt.replaceTzinfo cfg.source.timezone).astimezone
        cfg.destination.timezone).timestampMicros :=
  ⟨convert_valid_eq r cfg st ts dt hSt hTs hParse, hpos⟩

/-- C9 witness: the example reading, whose timestamp numeral 
1587987984922982 is positive. -/
theorem c9_line_shape_witness :
    convert_json_to_linedata readingExample cfgUTC =
      .ok ("sensors,station=" ++ (JValue.jstr "DummyRiverWQ").pystr ++ " "
        ++ lineFields readingExample ++ " "
        ++ toString (((⟨2020, 4, 27, 11, 46, 24, 922982⟩ : Datetime).replaceTzinfo
            cfgUTC.source.timezone).astimezone
            cfgUTC.destination.timezone).timestampMicros) ∧
    0 < (((⟨2020, 4, 27, 11, 46, 24, 922982⟩ : Datetime).replaceTzinfo
        cfgUTC.source.timezone).astimezone
        cfgUTC.destination.timezone).timestampMicros :=
  c9_line_shape readingExample cfgUTC (.jstr "DummyRiverWQ")
    "2020-04-27 11:46:24.922982" ⟨2020, 4, 27, 11, 46, 24, 922982⟩ rfl rfl rfl
    (by decide)

/-- C10: for coherent destination timezones the converter's whole output —
in particular its numeric timestamp — does not depend on the destination
timezone: converting the zoned instant never changes the instant. -/
theorem c10_destination_invariant (r : Reading) (src : SourceConfig)
    (ifx : InfluxConfig) (d1 d2 : TZ) (h1 : d1.Coherent) (h2 : d2.Coherent) :
    convert_json_to_linedata r ⟨src, ⟨d1, ifx⟩⟩ =
      convert_json_to_linedata r ⟨src, ⟨d2, ifx⟩⟩ := by
  cases hS : lookupField r "Station" with
  | none => simp only [convert_json_to_linedata, hS]
  | some st =>
    cases hT : lookupField r "TIMESTAMP" with
    | none => simp only [convert_json_to_linedata, hS, hT]
    | some v =>
      cases v with
      | jnum sv => simp only [convert_json_to_linedata, hS, hT]
      | jstr ts =>
        cases hP : strptime ts src.timestamp_format with
        | none => simp only [convert_json_to_linedata, hS, hT, hP]
        | some dt =>
          simp only [convert_json_to_linedata, hS, hT, hP]
          rw [Aware.astimezone_timestampMicros _ _ h1,
            Aware.astimezone_timestampMicros _ _ h2]

/-- C10 witness: UTC versus a fixed UTC+10 destination zone on the example
reading. -/
theorem c10_destination_invariant_witness :
    convert_json_to_linedata readingExample ⟨⟨tzUTC, fmtExample⟩, ⟨tzUTC, influxExample⟩⟩ =
      convert_json_to_linedata readingExample
        ⟨⟨tzUTC, fmtExample⟩, ⟨tzFixed 36000, influxExample⟩⟩ :=
  c10_destination_invariant readingExample ⟨tzUTC, fmtExample⟩ influxExample
    tzUTC (tzFixed 36000) (fun _ => rfl) (fun _ => rfl)
